import Mathlib

/-!
Verification of the structured-extraction pipeline of the
ai-driven-meeting-summarizer repository.

The Python sources embedded here:
  * src/ps 3/ai_engine.py   : AIEngine.process_transcript, AIEngine._fallback_parsing
  * src/ps 3/app.py         : summarize_meeting (AI-call/fallback routing),
                              create_fallback_analysis (ps3 copy), classify_task_priority
  * src/app.py              : create_fallback_analysis (legacy copy)

Python strings are modelled as Lean String. Python dicts holding the analysis
result are modelled as association lists over an inductive JSON-like value type.
The two external collaborators are modelled as parameters:
  * the generative model call (genai GenerativeModel.generate_content) as a value
    of type Except Unit String: Except.error is a raised exception, Except.ok is
    the returned response text;
  * the JSON decoder (json.loads) as a function String -> Option PyDict:
    none is a raised json.JSONDecodeError, some d is a successfully decoded object.
All recursion is structural so every definition evaluates by kernel reduction.
-/

/-- Python whitespace characters recognised by str.strip / str.split / regex \s. -/
def isSpacePy (c : Char) : Bool :=
  c = ' ' || c = '\t' || c = '\n' || c = '\r' || c = '\x0b' || c = '\x0c'

/-- Python str.strip() on a character list. -/
def pyStripChars (cs : List Char) : List Char :=
  ((cs.dropWhile isSpacePy).reverse.dropWhile isSpacePy).reverse

/-- Python str.strip(). -/
def pyStrip (s : String) : String :=
  String.mk (pyStripChars s.data)

/-- Python str.lower() (ASCII case folding, which is all the sources use). -/
def pyLower (s : String) : String :=
  String.mk (s.data.map Char.toLower)

/-- Python s[:n] (character prefix). -/
def pyTake (s : String) (n : Nat) : String :=
  String.mk (s.data.take n)

/-- Python s.split(chr(10)): split at every newline, keeping empty pieces. -/
def splitNlGo : List Char → List Char → List String
  | [], acc => [String.mk acc.reverse]
  | c :: rest, acc =>
    if c = '\n' then String.mk acc.reverse :: splitNlGo rest []
    else splitNlGo rest (c :: acc)

/-- Python transcript.split(chr(10)). -/
def splitNl (s : String) : List String :=
  splitNlGo s.data []

/-- Python str.split() with no argument: words separated by whitespace runs. -/
def splitWsGo : List Char → List Char → List String
  | [], [] => []
  | [], acc => [String.mk acc.reverse]
  | c :: rest, acc =>
    if isSpacePy c then
      match acc with
      | [] => splitWsGo rest []
      | _ => String.mk acc.reverse :: splitWsGo rest []
    else splitWsGo rest (c :: acc)

/-- Python str.split() (whitespace splitting, no empty words). -/
def splitWs (s : String) : List String :=
  splitWsGo s.data []

/-- Helper for containsSub: does the needle occur in any suffix. -/
def containsSubGo (needle : List Char) : List Char → Bool
  | [] => needle.isPrefixOf []
  | c :: rest => needle.isPrefixOf (c :: rest) || containsSubGo needle rest

/-- Python substring membership: needle in hay. -/
def containsSub (hay needle : String) : Bool :=
  containsSubGo needle.data hay.data

/-- ASCII character classes used by the source regexes. -/
def isUpperAZ (c : Char) : Bool := 'A' ≤ c && c ≤ 'Z'

def isLowerAZ (c : Char) : Bool := 'a' ≤ c && c ≤ 'z'

def isLetterAZ (c : Char) : Bool := isUpperAZ c || isLowerAZ c

/-- Python ', '.join-style concatenation. -/
def pyJoin (sep : String) : List String → String
  | [] => ""
  | [x] => x
  | x :: y :: rest => x ++ sep ++ pyJoin sep (y :: rest)

/-- JSON-like values stored in the analysis-result dictionaries. -/
inductive JVal where
  | s : String → JVal
  | n : Int → JVal
  | b : Bool → JVal
  | null : JVal
  | arr : List JVal → JVal
  | obj : List (String × JVal) → JVal

/-- A Python dict with string keys, as an association list in insertion order. -/
abbrev PyDict := List (String × JVal)

/-- Python d[k] lookup (none when the key is absent). -/
def pyGet : PyDict → String → Option JVal
  | [], _ => none
  | (k, v) :: rest, key => if k = key then some v else pyGet rest key

/-- Python `k in d`. -/
def hasKey (d : PyDict) (k : String) : Bool :=
  (pyGet d k).isSome

/-- Python `if k not in d: d[k] = v` (insertion appends at the end). -/
def setdefaultD (d : PyDict) (k : String) (v : JVal) : PyDict :=
  if hasKey d k then d else d ++ [(k, v)]

/-! ## Priority classifier (src/ps 3/app.py, classify_task_priority, lines 670-691) -/

/-- High-priority keyword list from classify_task_priority. -/
def high_keywords : List String :=
  ["must", "asap", "critical", "urgent", "immediately", "emergency",
   "deadline", "crucial", "vital", "essential", "required by"]

/-- Medium-priority keyword list from classify_task_priority. -/
def medium_keywords : List String :=
  ["should soon", "priority", "important", "should", "preferred",
   "recommend", "significant", "moderate", "needed soon"]

/-- src/ps 3/app.py classify_task_priority: lowercase the concatenation of task
text and context, return high on any high keyword, else medium on any medium
keyword, else low. -/
def classify_task_priority (task_text : String) (context : String) : String :=
  let task_lower := pyLower (task_text ++ " " ++ context)
  if high_keywords.any (fun k => containsSub task_lower k) then "high"
  else if medium_keywords.any (fun k => containsSub task_lower k) then "medium"
  else "low"

/-! ## AIEngine._fallback_parsing (src/ps 3/ai_engine.py, lines 221-286)

Line-by-line section parser over the raw text. The local dict named result in
the source is modelled by the structure FPState; the loop is a fold over the
lines of the text. The participants entry stays the empty list throughout, as
in the source. The `except` at line 283 is unreachable in this model because
every operation in the loop body is total.
-/

/-- The value of current_section inside _fallback_parsing. -/
inductive FPSec where
  | summarySec
  | actionItemsSec
  | keyDecisionsSec
  | nextStepsSec

/-- The mutable locals of _fallback_parsing: the result dict entries that the
loop updates plus current_section. -/
structure FPState where
  summary : String
  action_items : List String
  key_decisions : List String
  next_steps : List String
  current : Option FPSec

/-- Initial result dict of _fallback_parsing (lines 231-237). -/
def fpInit : FPState :=
  { summary := "", action_items := [], key_decisions := [], next_steps := [],
    current := none }

/-- Python line.split(chr(58), 1)[1]: everything after the first colon. -/
def afterFirstColonGo : List Char → List Char
  | [] => []
  | c :: rest => if c = ':' then rest else afterFirstColonGo rest

def afterFirstColon (s : String) : String :=
  String.mk (afterFirstColonGo s.data)

/-- Characters matched by the bullet class in re.sub of line 270. -/
def isBulletChar (c : Char) : Bool :=
  c.isDigit || c = '.' || c = '-' || c = '*' || c = '+'

/-- re.sub of line 270: drop one leading bullet character and the whitespace
after it (the pattern is anchored at the start, so at most one substitution). -/
def stripBullet (s : String) : String :=
  match s.data with
  | [] => s
  | c :: rest =>
    if isBulletChar c then String.mk (rest.dropWhile isSpacePy) else s

/-- Append a cleaned line to the list selected by current_section. -/
def fpAppend (st : FPState) (sec : FPSec) (clean : String) : FPState :=
  match sec with
  | .summarySec => st
  | .actionItemsSec => { st with action_items := st.action_items ++ [clean] }
  | .keyDecisionsSec => { st with key_decisions := st.key_decisions ++ [clean] }
  | .nextStepsSec => { st with next_steps := st.next_steps ++ [clean] }

/-- One iteration of the line loop of _fallback_parsing (lines 244-272). -/
def fp_step (st : FPState) (rawLine : String) : FPState :=
  let line := pyStrip rawLine
  if line = "" then st
  else
    let line_lower := pyLower line
    if containsSub line_lower "summary" && containsSub line ":" then
      let summary_part := pyStrip (afterFirstColon line)
      if summary_part = "" then { st with current := some .summarySec }
      else { st with current := some .summarySec, summary := summary_part }
    else if containsSub line_lower "action" && containsSub line_lower "item" then
      { st with current := some .actionItemsSec }
    else if containsSub line_lower "decision" then
      { st with current := some .keyDecisionsSec }
    else if containsSub line_lower "next" && containsSub line_lower "step" then
      { st with current := some .nextStepsSec }
    else
      match st.current with
      | none => st
      | some .summarySec =>
        if st.summary = "" then { st with summary := line } else st
      | some sec =>
        let clean_line := stripBullet line
        if clean_line = "" then st
        else if 3 < clean_line.length then fpAppend st sec clean_line
        else st

/-- Default summary block of _fallback_parsing (lines 274-281): first stripped
line longer than 20 characters, truncated to 200 with an ellipsis, or the
fixed placeholder sentence. -/
def fpDefaultSummary (lines : List String) : String :=
  match (lines.map pyStrip).filter (fun l => !l.isEmpty && decide (20 < l.length)) with
  | [] => "Meeting transcript processed successfully."
  | s0 :: _ => if 200 < s0.length then pyTake s0 200 ++ "..." else s0

/-- AIEngine._fallback_parsing: parse unstructured text into the result dict. -/
def fallback_parsing (text : String) : PyDict :=
  let lines := splitNl text
  let st := lines.foldl fp_step fpInit
  let finalSummary := if st.summary = "" then fpDefaultSummary lines else st.summary
  [("summary", JVal.s finalSummary),
   ("action_items", JVal.arr (st.action_items.map JVal.s)),
   ("participants", JVal.arr []),
   ("key_decisions", JVal.arr (st.key_decisions.map JVal.s)),
   ("next_steps", JVal.arr (st.next_steps.map JVal.s))]

/-! ## AIEngine.process_transcript (src/ps 3/ai_engine.py, lines 45-219) -/

/-- Python response_text.find(chr(123)): index of the first occurrence. -/
def pyFindChar (s : String) (c : Char) : Option Nat :=
  s.data.findIdx? (fun x => x = c)

/-- Python response_text.rfind(chr(125)): index of the last occurrence. -/
def pyRfindChar (s : String) (c : Char) : Option Nat :=
  match s.data.reverse.findIdx? (fun x => x = c) with
  | some i => some (s.data.length - 1 - i)
  | none => none

/-- The candidate JSON payload response_text[json_start:json_end] of lines
186-190, defined when both braces are found. -/
def candidateSpan (response_text : String) (js je : Nat) : String :=
  String.mk ((response_text.data.drop js).take (je + 1 - js))

/-- Lines 194-202: backfill the four mandatory top-level fields that are
missing from the parsed object. Python dict insertion appends at the end, in
source order. -/
def ensure_fields (d : PyDict) : PyDict :=
  setdefaultD
    (setdefaultD
      (setdefaultD
        (setdefaultD d "summary" (JVal.s "No summary available."))
        "action_items" (JVal.arr []))
      "key_decisions" (JVal.arr []))
    "next_steps" (JVal.arr [])

/-- Lines 184-214: locate the brace-delimited span, decode it with json.loads
(modelled by the jsonLoads parameter; none is a raised JSONDecodeError), and on
any failure run _fallback_parsing on the response text. -/
def parse_stage (jsonLoads : String → Option PyDict) (response_text : String) :
    PyDict :=
  match pyFindChar response_text '\x7b', pyRfindChar response_text '\x7d' with
  | some js, some je =>
    match jsonLoads (candidateSpan response_text js je) with
    | some d => ensure_fields d
    | none => fallback_parsing response_text
  | _, _ => fallback_parsing response_text

/-- AIEngine.process_transcript. modelLoaded is whether self.model is set
(lines 59-61); modelCall is the outcome of self.model.generate_content (line
179), where Except.error is a raised exception. The outer try of line 55
catches a model-call exception and re-raises it at line 219, which this model
returns as Except.error. -/
def process_transcript (modelLoaded : Bool) (modelCall : Except Unit String)
    (jsonLoads : String → Option PyDict) (transcript : String) :
    Except Unit PyDict :=
  if !modelLoaded then Except.ok (fallback_parsing transcript)
  else
    match modelCall with
    | Except.error e => Except.error e
    | Except.ok raw =>
      let response_text := pyStrip raw
      Except.ok (parse_stage jsonLoads response_text)

/-! ## Speaker matching and the remark pass

The second action_items loop is textually identical in src/app.py (lines
276-331) and src/ps 3/app.py (lines 590-645); it is embedded once and used by
both copies of create_fallback_analysis. Python set iteration order (for the
participants set) is unspecified; it is modelled as insertion order.
-/

/-- One name word of the speaker regex: one A-Z character followed by one or
more a-z characters. Returns the word and the remaining characters. -/
def nameWord (cs : List Char) : Option (List Char × List Char) :=
  match cs with
  | [] => none
  | c :: rest =>
    if isUpperAZ c then
      match rest.takeWhile isLowerAZ with
      | [] => none
      | lows => some (c :: lows, rest.dropWhile isLowerAZ)
    else none

/-- Extension loop of the speaker-name group: after the words already matched,
either whitespace plus a further name word extends the group, or a colon ends
it. The two alternatives are mutually exclusive, so this greedy recursion is
exactly the regex backtracking behaviour. Fuel is the remaining length. -/
def speakerExtend : Nat → List Char → List Char → Option (List Char × List Char)
  | 0, _, _ => none
  | fuel + 1, nameAcc, rest =>
    let ws := rest.takeWhile isSpacePy
    match ws with
    | _ :: _ =>
      match nameWord (rest.dropWhile isSpacePy) with
      | some (w, rest2) => speakerExtend fuel (nameAcc ++ ws ++ w) rest2
      | none =>
        match rest with
        | ':' :: rest2 => some (nameAcc, rest2)
        | _ => none
    | [] =>
      match rest with
      | ':' :: rest2 => some (nameAcc, rest2)
      | _ => none

/-- re.match of the speaker pattern (name words, colon, optional whitespace,
then at least one character): returns the speaker group and group 2. Because
the dot does not match a newline and lines contain none, group 2 is the rest
of the line after the shortest whitespace prefix leaving it non-empty. -/
def speakerMatch (cs : List Char) : Option (String × String) :=
  match nameWord cs with
  | none => none
  | some (w, rest) =>
    match speakerExtend (rest.length + 1) w rest with
    | none => none
    | some (name, afterColon) =>
      match afterColon with
      | [] => none
      | _ :: _ =>
        match afterColon.dropWhile isSpacePy with
        | [] =>
          match afterColon.reverse with
          | [] => none
          | c :: _ => some (String.mk name, String.mk [c])
        | g2 => some (String.mk name, String.mk g2)

/-- Generic leftmost re.search: try the position matcher at every suffix. -/
def scanFirst (f : List Char → Option String) : List Char → Option String
  | [] => f []
  | c :: rest =>
    match f (c :: rest) with
    | some r => some r
    | none => scanFirst f rest

/-- Case-insensitive single-character match (re.IGNORECASE). -/
def ciIs (c target : Char) : Bool := Char.toLower c = target

/-- Under re.IGNORECASE the group pattern one-upper-then-lowers becomes: two or
more ASCII letters of any case. Returns the group and the remainder. -/
def letterRun (cs : List Char) : Option (List Char × List Char) :=
  match cs with
  | [] => none
  | c :: rest =>
    if isLetterAZ c then
      match rest.takeWhile isLetterAZ with
      | [] => none
      | ls => some (c :: ls, rest.dropWhile isLetterAZ)
    else none

/-- Position matcher for the first directed-at pattern: literal to, whitespace,
then the name group (all case-insensitive). -/
def patToAt : List Char → Option String
  | t :: o :: rest =>
    if ciIs t 't' && ciIs o 'o' then
      match rest.takeWhile isSpacePy with
      | [] => none
      | _ =>
        match letterRun (rest.dropWhile isSpacePy) with
        | some (g, _) => some (String.mk g)
        | none => none
    else none
  | _ => none

/-- Position matcher for the at-sign pattern: the at character immediately
followed by the name group. -/
def patAtAt : List Char → Option String
  | '@' :: rest =>
    match letterRun rest with
    | some (g, _) => some (String.mk g)
    | none => none
  | _ => none

/-- Position matcher for the third pattern: literal for, whitespace, then the
name group (all case-insensitive). -/
def patForAt : List Char → Option String
  | f :: o :: r :: rest =>
    if ciIs f 'f' && ciIs o 'o' && ciIs r 'r' then
      match rest.takeWhile isSpacePy with
      | [] => none
      | _ =>
        match letterRun (rest.dropWhile isSpacePy) with
        | some (g, _) => some (String.mk g)
        | none => none
    else none
  | _ => none

/-- Position matcher for the fourth pattern: the name group, an optional comma,
whitespace, then the literal you (case-insensitive). -/
def patYouAt (cs : List Char) : Option String :=
  match letterRun cs with
  | none => none
  | some (g, rest) =>
    let rest2 := match rest with
      | ',' :: r => r
      | _ => rest
    match rest2.takeWhile isSpacePy with
    | [] => none
    | _ =>
      match rest2.dropWhile isSpacePy with
      | y :: o :: u :: _ =>
        if ciIs y 'y' && ciIs o 'o' && ciIs u 'u' then some (String.mk g) else none
      | _ => none

/-- The direct_patterns loop: first pattern that matches anywhere in the
content wins, in source order. -/
def directPatternSearch (content : String) : Option String :=
  match scanFirst patToAt content.data with
  | some g => some g
  | none =>
    match scanFirst patAtAt content.data with
    | some g => some g
    | none =>
      match scanFirst patForAt content.data with
      | some g => some g
      | none => scanFirst patYouAt content.data

/-- Set insertion, modelled in insertion order. -/
def addUnique (xs : List String) (x : String) : List String :=
  if xs.contains x then xs else xs ++ [x]

/-- Keyword list of the remark pass (action_item_keywords in src/app.py,
remark_keywords in src/ps 3/app.py; the lists are identical). -/
def remark_keywords : List String :=
  ["feedback", "comment", "suggestion", "note", "remark", "observation",
   "think", "believe", "feel", "consider", "recommend", "suggest",
   "concern", "worry", "issue", "problem", "good", "great", "excellent",
   "bad", "wrong", "improve", "better", "change", "update"]

/-- given_to resolution: first the participants scan (insertion order), then
the direct_patterns loop overrides it when any pattern matches. -/
def resolveGivenTo (parts : List String) (speaker content_lower content : String) :
    String :=
  let fromParts :=
    match parts.find? (fun p => p ≠ speaker && containsSub content_lower (pyLower p)) with
    | some p => p
    | none => "General"
  match directPatternSearch content with
  | some g => g
  | none => fromParts

/-- The placeholder entry substituted when no remark-style items were found. -/
def systemPlaceholder : JVal :=
  JVal.obj [("person", JVal.s "System"),
            ("remark", JVal.s "Meeting analysis completed using fallback processing"),
            ("given_to", JVal.s "General")]

/-- The remark-pass loop over the lines: strip, skip empty, match the speaker
pattern, collect participants, and on a keyword hit append the person, remark,
given_to object. -/
def remarkPass : List String → List String → List JVal → List JVal
  | [], _, items => items
  | l :: rest, parts, items =>
    let line := pyStrip l
    if line = "" then remarkPass rest parts items
    else
      match speakerMatch line.data with
      | none => remarkPass rest parts items
      | some (speaker, g2) =>
        let content := pyStrip g2
        let parts2 := addUnique parts speaker
        let content_lower := pyLower content
        if remark_keywords.any (fun k => containsSub content_lower k) then
          let given_to := resolveGivenTo parts2 speaker content_lower content
          remarkPass rest parts2
            (items ++ [JVal.obj [("person", JVal.s speaker),
                                 ("remark", JVal.s content),
                                 ("given_to", JVal.s given_to)]])
        else remarkPass rest parts2 items

/-! ## Sentiment scoring (shared shape of both create_fallback_analysis copies) -/

/-- Word lists of src/app.py lines 164-165. -/
def legacy_positive_words : List String :=
  ["good", "great", "excellent", "positive", "success", "complete",
   "finished", "ready", "done", "progress"]

def legacy_negative_words : List String :=
  ["problem", "issue", "error", "failed", "critical", "urgent", "delay",
   "concern", "worry", "difficult"]

/-- Word lists of src/ps 3/app.py lines 546-547. -/
def ps3_positive_words : List String :=
  ["good", "great", "excellent", "positive", "success", "complete", "finished"]

def ps3_negative_words : List String :=
  ["problem", "issue", "error", "failed", "critical", "urgent", "delay"]

/-- Sentiment block shared by both copies: count lowercased words belonging to
each list and choose the mood with its fixed justification sentence. -/
def moodOf (posList negList : List String) (transcript : String) :
    String × String :=
  let words := splitWs (pyLower transcript)
  let positive_count := (words.filter (fun w => posList.contains w)).length
  let negative_count := (words.filter (fun w => negList.contains w)).length
  if negative_count < positive_count then
    ("Positive", "Meeting had more positive language and successful outcomes")
  else if positive_count < negative_count then
    ("Negative", "Meeting contained several issues and problems to address")
  else
    ("Neutral", "Meeting had balanced discussion of topics")

/-! ## src/ps 3/app.py create_fallback_analysis (lines 538-668) -/

/-- The ps3 copy of create_fallback_analysis. The first action-item pass of
lines 562-588 builds a list that line 591 overwrites before any use, so it does
not affect the returned dict and is omitted here. The returned dict literal
names action_items twice (once capped at 5, once at 10); Python keeps the last
value at the first position, which is what this definition returns. -/
def create_fallback_analysis_ps3 (transcript client_name project_name : String) :
    PyDict :=
  let md := moodOf ps3_positive_words ps3_negative_words transcript
  let lines := splitNl transcript
  let items0 := remarkPass lines [] []
  let action_items := if items0.isEmpty then [systemPlaceholder] else items0
  let summary :=
    "Meeting for " ++ client_name ++ " regarding " ++ project_name ++
    ". Key topics discussed include project progress, technical implementation, and upcoming deliverables. " ++
    toString action_items.length ++ " action items identified."
  [("summary", JVal.s summary),
   ("mood", JVal.obj [("overall", JVal.s md.1), ("justification", JVal.s md.2)]),
   ("action_items", JVal.arr (action_items.take 10)),
   ("key_decisions", JVal.arr ([JVal.s "Project timeline and deliverables discussed",
                                JVal.s "Resource allocation planned",
                                JVal.s "Next meeting scheduled"])),
   ("next_steps", JVal.arr ([JVal.s "Follow up on action items",
                             JVal.s "Prepare progress report",
                             JVal.s "Schedule next review meeting"]))]

/-- The AI-call-with-fallback routing of summarize_meeting (src/ps 3/app.py
lines 470-479): run AIEngine.process_transcript, and if it raises, fall back to
create_fallback_analysis on the same transcript. -/
def summarize_meeting_core (modelLoaded : Bool) (modelCall : Except Unit String)
    (jsonLoads : String → Option PyDict)
    (transcript client_name project_name : String) : PyDict :=
  match process_transcript modelLoaded modelCall jsonLoads transcript with
  | Except.ok r => r
  | Except.error _ => create_fallback_analysis_ps3 transcript client_name project_name

/-! ## src/app.py create_fallback_analysis (lines 156-342) -/

/-- One sentence-delimiter character of the re.split pattern of line 198. -/
def isPunct (c : Char) : Bool := c = '.' || c = '!' || c = '?'

/-- re.split on one-or-more delimiters: a run of delimiter characters is a
single separator; leading or trailing runs produce empty pieces. The Bool flag
records whether the previous character was a delimiter. -/
def splitPunctGo : List Char → List Char → Bool → List String
  | [], acc, _ => [String.mk acc.reverse]
  | c :: rest, acc, afterDelim =>
    if isPunct c then
      if afterDelim then splitPunctGo rest acc true
      else String.mk acc.reverse :: splitPunctGo rest [] true
    else splitPunctGo rest (c :: acc) false

/-- re.split of line 198 on a line. -/
def splitPunct (s : String) : List String :=
  splitPunctGo s.data [] false

/-- Lines 195-202: split every line into parts, strip them, and keep the parts
longer than 10 characters. -/
def cfaStatements (lines : List String) : List String :=
  (lines.map (fun line =>
    ((splitPunct line).map pyStrip).filter
      (fun part => !part.isEmpty && decide (10 < part.length)))).flatten

/-- re.search of line 211 anchored at the start: one A-Z character, one or more
a-z characters, then a colon. Returns the name group. -/
def leadName (cs : List Char) : Option String :=
  match nameWord cs with
  | some (w, ':' :: _) => some (String.mk w)
  | _ => none

/-- re.sub of line 224: remove a leading name-colon prefix together with the
whitespace after the colon. -/
def stripLeadName (s : String) : String :=
  match nameWord s.data with
  | some (_, ':' :: rest) => String.mk (rest.dropWhile isSpacePy)
  | _ => s

/-- Task-indicating keywords of line 208. -/
def legacy_task_keywords : List String :=
  ["will", "need to", "should", "must", "finish", "complete", "schedule",
   "test", "help with"]

/-- Urgency keyword lists of lines 216-218. -/
def legacy_high_words : List String :=
  ["critical", "urgent", "asap", "immediately", "friday"]

def legacy_medium_words : List String :=
  ["important", "priority", "soon", "thursday"]

/-- Lines 204-233: the first action-item pass over the statements, producing
the six-field task dictionaries. -/
def legacyTaskItem (statement : String) : Option PyDict :=
  let statement_lower := pyLower statement
  if legacy_task_keywords.any (fun k => containsSub statement_lower k) then
    let assignee :=
      match leadName statement.data with
      | some nm => nm
      | none => "Unassigned"
    let priority :=
      if legacy_high_words.any (fun k => containsSub statement_lower k) then "high"
      else if legacy_medium_words.any (fun k => containsSub statement_lower k) then "medium"
      else "low"
    let task_desc := pyStrip (stripLeadName statement)
    if !task_desc.isEmpty && decide (10 < task_desc.length) then
      some [("task", JVal.s task_desc),
            ("assignee", JVal.s assignee),
            ("assigned_by", JVal.s "Meeting"),
            ("deadline", JVal.s "Not specified"),
            ("priority", JVal.s priority),
            ("confidence", JVal.s "Medium")]
    else none
  else none

def cfaTaskItems (statements : List String) : List PyDict :=
  statements.filterMap legacyTaskItem

/-- Decision keywords of line 236 and next-step keywords of line 240. -/
def legacy_decision_keywords : List String :=
  ["decided", "agreed", "concluded", "final", "approved", "confirmed", "perfect"]

def legacy_next_step_keywords : List String :=
  ["next", "follow up", "schedule", "plan", "prepare", "finalize"]

def cfaDecisions (statements : List String) : List String :=
  (statements.filter (fun st =>
    legacy_decision_keywords.any (fun k => containsSub (pyLower st) k))).map pyStrip

def cfaNextSteps (statements : List String) : List String :=
  (statements.filter (fun st =>
    legacy_next_step_keywords.any (fun k => containsSub (pyLower st) k))).map pyStrip

/-- One non-overlapping re.findall match of line 186 at the current position:
one A-Z character, one or more a-z characters, then a colon; returns the whole
match including the colon and the remaining characters. -/
def nameColonAt (cs : List Char) : Option (String × List Char) :=
  match nameWord cs with
  | some (w, ':' :: after) => some (String.mk (w ++ [':']), after)
  | _ => none

/-- re.findall of line 186: non-overlapping left-to-right matches. Fuel is the
string length; every step consumes at least one character. -/
def findNameColons : Nat → List Char → List String
  | 0, _ => []
  | _ + 1, [] => []
  | fuel + 1, c :: rest =>
    match nameColonAt (c :: rest) with
    | some (nm, after) => nm :: findNameColons fuel after
    | none => findNameColons fuel rest

/-- Python name.rstrip(chr(58)). -/
def rstripColon (s : String) : String :=
  String.mk ((s.data.reverse.dropWhile (fun c => c = ':')).reverse)

/-- Lines 184-187: the names set collected over all lines, modelled in
insertion order (Python set iteration order is unspecified). -/
def cfaNames (lines : List String) : List String :=
  lines.foldl (fun acc line =>
    (((findNameColons (line.length + 1) line.data)).map rstripColon).foldl addUnique acc) []

/-- action_items[0] task field accessor used by the summary f-string. -/
def firstTaskStr (items : List PyDict) : String :=
  match items with
  | d :: _ =>
    match pyGet d "task" with
    | some (JVal.s st) => st
    | _ => ""
  | [] => ""

/-- Lines 243-258: the summary paragraph assembled from fixed template
sentences. It uses the task items of the first pass and the decisions found
before the generic defaults are substituted. -/
def cfaSummary (client_name project_name : String) (names : List String)
    (taskItems : List PyDict) (decisions : List String) (mood : String) : String :=
  pyJoin " "
    (["Meeting for " ++ client_name ++ " regarding " ++ project_name ++ "."] ++
     (if names.isEmpty then []
      else ["Participants included: " ++ pyJoin ", " (names.take 3) ++ "."]) ++
     (if taskItems.isEmpty then []
      else ["Key tasks identified: " ++ toString taskItems.length ++
            " action items including " ++ pyTake (firstTaskStr taskItems) 50 ++ "..."]) ++
     (if decisions.isEmpty then []
      else ["Important decisions made: " ++ pyTake (decisions.headD "") 50 ++ "..."]) ++
     ["Overall meeting mood was " ++ pyLower mood ++
      " with focus on project deliverables and timeline."])

/-- Generic defaults of lines 261-274. -/
def legacy_default_decisions : List String :=
  ["Project timeline and deliverables discussed",
   "Resource allocation planned",
   "Next meeting scheduled"]

def legacy_default_next_steps : List String :=
  ["Follow up on action items",
   "Prepare progress report",
   "Schedule next review meeting"]

/-- Line 181: the stripped non-empty lines of the transcript. -/
def cfaLines (transcript : String) : List String :=
  ((splitNl transcript).map pyStrip).filter (fun l => !l.isEmpty)

/-- src/app.py create_fallback_analysis. The six-field task items of the first
pass feed only the summary sentence; line 277 overwrites action_items before
the return, so the returned action_items are the remark-pass objects. -/
def create_fallback_analysis (transcript client_name project_name : String) :
    PyDict :=
  let md := moodOf legacy_positive_words legacy_negative_words transcript
  let lines := cfaLines transcript
  let names := cfaNames lines
  let statements := cfaStatements lines
  let taskItems := cfaTaskItems statements
  let key_decisions := cfaDecisions statements
  let next_steps := cfaNextSteps statements
  let summary := cfaSummary client_name project_name names taskItems key_decisions md.1
  let key_decisions2 :=
    if key_decisions.isEmpty then legacy_default_decisions else key_decisions
  let next_steps2 :=
    if next_steps.isEmpty then legacy_default_next_steps else next_steps
  let items0 := remarkPass lines [] []
  let action_items := if items0.isEmpty then [systemPlaceholder] else items0
  [("summary", JVal.s summary),
   ("mood", JVal.obj [("overall", JVal.s md.1), ("justification", JVal.s md.2)]),
   ("action_items", JVal.arr (action_items.take 10)),
   ("key_decisions", JVal.arr ((key_decisions2.take 3).map JVal.s)),
   ("next_steps", JVal.arr ((next_steps2.take 3).map JVal.s))]

/-! ## Result accessors used by the statements below -/

/-- The summary entry of a result dict, when it is a string. -/
def summaryStr (d : PyDict) : Option String :=
  match pyGet d "summary" with
  | some (JVal.s st) => some st
  | _ => none

/-- Whether the summary entry is a non-empty string. -/
def summaryNonempty (d : PyDict) : Bool :=
  match summaryStr d with
  | some st => !st.isEmpty
  | none => false

/-- The action_items entry of a result dict, when it is a list. -/
def actionItemsOf (d : PyDict) : List JVal :=
  match pyGet d "action_items" with
  | some (JVal.arr l) => l
  | _ => []

/-- The key_decisions entry of a result dict, when it is a list. -/
def keyDecisionsOf (d : PyDict) : List JVal :=
  match pyGet d "key_decisions" with
  | some (JVal.arr l) => l
  | _ => []

/-- The next_steps entry of a result dict, when it is a list. -/
def nextStepsOf (d : PyDict) : List JVal :=
  match pyGet d "next_steps" with
  | some (JVal.arr l) => l
  | _ => []

/-- Number of action items of a process_transcript outcome (0 when it raised). -/
def actionItemsLenE (r : Except Unit PyDict) : Nat :=
  match r with
  | Except.ok d => (actionItemsOf d).length
  | Except.error _ => 0

/-- Whether an object field is present with a string value. -/
def strField (d : List (String × JVal)) (k : String) : Bool :=
  match pyGet d k with
  | some (JVal.s _) => true
  | _ => false

/-- Shape of the remark objects that the fallback analyzers return as action
items: person, remark and given_to all present with string values. -/
def isRemarkObj (v : JVal) : Bool :=
  match v with
  | JVal.obj d => strField d "person" && strField d "remark" && strField d "given_to"
  | _ => false

/-- The four mandatory top-level fields of an analysis result. -/
def hasMandatoryFields (d : PyDict) : Bool :=
  hasKey d "summary" && hasKey d "action_items" &&
  hasKey d "key_decisions" && hasKey d "next_steps"

/-! ## Helper lemmas -/

theorem string_data_append (s t : String) : (s ++ t).data = s.data ++ t.data := rfl

theorem isEmpty_false_of_data {s : String} (h : s.data ≠ []) : s.isEmpty = false := by
  cases hb : s.isEmpty with
  | false => rfl
  | true =>
    have hs : s = "" := (String.isEmpty_iff s).mp hb
    exact absurd (by rw [hs]) h

theorem pyGet_append (d e : PyDict) (k : String) :
    pyGet (d ++ e) k =
      match pyGet d k with
      | some v => some v
      | none => pyGet e k := by
  induction d with
  | nil => simp [pyGet]
  | cons kv rest ih =>
    obtain ⟨k2, v⟩ := kv
    by_cases hk : k2 = k
    · simp [pyGet, hk]
    · simp only [List.cons_append, pyGet, if_neg hk]
      exact ih

theorem hasKey_append_left {d : PyDict} {k : String} (e : PyDict)
    (h : hasKey d k = true) : hasKey (d ++ e) k = true := by
  unfold hasKey at h ⊢
  rw [pyGet_append]
  cases hg : pyGet d k with
  | none => rw [hg] at h; simp at h
  | some v => simp

theorem hasKey_setdefault_self (d : PyDict) (k : String) (v : JVal) :
    hasKey (setdefaultD d k v) k = true := by
  unfold setdefaultD
  by_cases h : hasKey d k = true
  · simp [h]
  · have hb : hasKey d k = false := by
      cases hh : hasKey d k
      · rfl
      · exact absurd hh h
    simp only [hb, Bool.false_eq_true, if_false]
    unfold hasKey at hb ⊢
    rw [pyGet_append]
    cases hg : pyGet d k with
    | none => simp [pyGet]
    | some w => rw [hg] at hb; simp at hb

theorem hasKey_setdefault_mono {d : PyDict} {k : String} (k2 : String) (v : JVal)
    (h : hasKey d k = true) : hasKey (setdefaultD d k2 v) k = true := by
  unfold setdefaultD
  by_cases hd : hasKey d k2 = true
  · simp [hd, h]
  · have hb : hasKey d k2 = false := by
      cases hh : hasKey d k2
      · rfl
      · exact absurd hh hd
    simp only [hb, Bool.false_eq_true, if_false]
    exact hasKey_append_left _ h

theorem ensure_fields_mandatory (d : PyDict) :
    hasMandatoryFields (ensure_fields d) = true := by
  unfold hasMandatoryFields ensure_fields
  simp only [Bool.and_eq_true]
  refine ⟨⟨⟨?_, ?_⟩, ?_⟩, ?_⟩
  · exact hasKey_setdefault_mono _ _ (hasKey_setdefault_mono _ _
      (hasKey_setdefault_mono _ _ (hasKey_setdefault_self _ _ _)))
  · exact hasKey_setdefault_mono _ _ (hasKey_setdefault_mono _ _
      (hasKey_setdefault_self _ _ _))
  · exact hasKey_setdefault_mono _ _ (hasKey_setdefault_self _ _ _)
  · exact hasKey_setdefault_self _ _ _

theorem fallback_parsing_mandatory (t : String) :
    hasMandatoryFields (fallback_parsing t) = true := rfl

theorem cfa_ps3_mandatory (t c p : String) :
    hasMandatoryFields (create_fallback_analysis_ps3 t c p) = true := rfl

/-! ## Claim theorems -/

/-- Claim C10: for every transcript, client name and project name, the ps3 copy
of create_fallback_analysis returns key_decisions and next_steps equal to the
two fixed constant lists, so both fields are independent of the input. -/
theorem c10_ps3_constant_decisions_and_steps (t c p : String) :
    keyDecisionsOf (create_fallback_analysis_ps3 t c p) =
      [JVal.s "Project timeline and deliverables discussed",
       JVal.s "Resource allocation planned",
       JVal.s "Next meeting scheduled"] ∧
    nextStepsOf (create_fallback_analysis_ps3 t c p) =
      [JVal.s "Follow up on action items",
       JVal.s "Prepare progress report",
       JVal.s "Schedule next review meeting"] :=
  ⟨rfl, rfl⟩

/-- Claim C9: on the empty transcript, the orchestrator (process_transcript
with no model configured, which routes to _fallback_parsing) returns the fixed
non-empty placeholder summary and an empty action_items list. -/
theorem c9_empty_transcript_placeholder (mc : Except Unit String)
    (jl : String → Option PyDict) :
    process_transcript false mc jl "" = Except.ok (fallback_parsing "") ∧
    summaryStr (fallback_parsing "") =
      some "Meeting transcript processed successfully." ∧
    actionItemsOf (fallback_parsing "") = [] :=
  ⟨rfl, rfl, rfl⟩

/-- Claim C2: when the single model call raises an exception, the result the
summarize_meeting routing ultimately returns is exactly the result of the
fallback extractor alone on the same transcript. -/
theorem c2_model_exception_routes_to_fallback (jl : String → Option PyDict)
    (t c p : String) :
    summarize_meeting_core true (Except.error ()) jl t c p =
      create_fallback_analysis_ps3 t c p := rfl

/-- Claim C8 (failing scenario): on the spec scenario transcript, the legacy
fallback extractor returns only the System placeholder as its action_items
(the Sarah task item is built by the first pass but discarded by the
reassignment at line 277), while the priority classifier does return high on
the urgent text. -/
theorem c8_scenario_evaluation :
    actionItemsOf (create_fallback_analysis
        "Sarah: I will finish the report by Friday. Mike: That\x27s urgent, please prioritize it."
        "Acme" "Apollo") = [systemPlaceholder] ∧
    classify_task_priority "urgent, please prioritize" "" = "high" :=
  ⟨rfl, rfl⟩

/-- Claim C4: the priority classifier lowercases the concatenation of task text
and context; any high-urgency keyword (in particular asap or critical) gives
high even when medium keywords are present, since the high check precedes the
medium check; otherwise any medium keyword gives medium; otherwise low. -/
theorem c4_priority_precedence (t c : String) :
    (containsSub (pyLower (t ++ " " ++ c)) "asap" = true →
       classify_task_priority t c = "high") ∧
    (containsSub (pyLower (t ++ " " ++ c)) "critical" = true →
       classify_task_priority t c = "high") ∧
    (high_keywords.any (fun k => containsSub (pyLower (t ++ " " ++ c)) k) = true →
       classify_task_priority t c = "high") ∧
    (high_keywords.any (fun k => containsSub (pyLower (t ++ " " ++ c)) k) = false →
     medium_keywords.any (fun k => containsSub (pyLower (t ++ " " ++ c)) k) = true →
       classify_task_priority t c = "medium") ∧
    (high_keywords.any (fun k => containsSub (pyLower (t ++ " " ++ c)) k) = false →
     medium_keywords.any (fun k => containsSub (pyLower (t ++ " " ++ c)) k) = false →
       classify_task_priority t c = "low") := by
  refine ⟨?_, ?_, ?_, ?_, ?_⟩
  · intro h
    have hh : high_keywords.any
        (fun k => containsSub (pyLower (t ++ " " ++ c)) k) = true :=
      List.any_eq_true.mpr ⟨"asap", by decide, h⟩
    simp [classify_task_priority, hh]
  · intro h
    have hh : high_keywords.any
        (fun k => containsSub (pyLower (t ++ " " ++ c)) k) = true :=
      List.any_eq_true.mpr ⟨"critical", by decide, h⟩
    simp [classify_task_priority, hh]
  · intro hh
    simp [classify_task_priority, hh]
  · intro hh hm
    simp [classify_task_priority, hh, hm]
  · intro hh hm
    simp [classify_task_priority, hh, hm]

/-- Witness for C4 at a concrete input that also contains a medium keyword. -/
theorem c4_priority_precedence_witness :
    containsSub (pyLower ("Finish the report ASAP" ++ " " ++ "it is important"))
      "asap" = true ∧
    classify_task_priority "Finish the report ASAP" "it is important" = "high" :=
  ⟨by decide,
   (c4_priority_precedence "Finish the report ASAP" "it is important").1 (by decide)⟩

/-- Claim C3: the orchestrator takes the span from the first opening brace to
the last closing brace of the response text as the candidate JSON payload;
when either brace is missing, or json.loads fails on the span, it runs the
fallback extractor on the response text itself (never on the transcript); when
the span parses, the backfilled parsed object is returned. -/
theorem c3_response_repair (jl : String → Option PyDict) (rt : String) :
    (pyFindChar rt '\x7b' = none ∨ pyRfindChar rt '\x7d' = none →
       parse_stage jl rt = fallback_parsing rt) ∧
    (∀ js je, pyFindChar rt '\x7b' = some js → pyRfindChar rt '\x7d' = some je →
       jl (candidateSpan rt js je) = none →
       parse_stage jl rt = fallback_parsing rt) ∧
    (∀ js je d, pyFindChar rt '\x7b' = some js → pyRfindChar rt '\x7d' = some je →
       jl (candidateSpan rt js je) = some d →
       parse_stage jl rt = ensure_fields d) := by
  refine ⟨?_, ?_, ?_⟩
  · intro h
    rcases h with h | h
    · simp [parse_stage, h]
    · cases hf : pyFindChar rt '\x7b' with
      | none => simp [parse_stage, hf]
      | some js => simp [parse_stage, hf, h]
  · intro js je hjs hje hload
    simp [parse_stage, hjs, hje, hload]
  · intro js je d hjs hje hload
    simp [parse_stage, hjs, hje, hload]

/-- Witness for C3: a response with no braces goes to the fallback parser. -/
theorem c3_response_repair_witness :
    parse_stage (fun _ => none) "The meeting went well" =
      fallback_parsing "The meeting went well" :=
  (c3_response_repair (fun _ => none) "The meeting went well").1
    (Or.inl (by decide))

/-- Claim C1 (counterexample): when the model call raises,
AIEngine.process_transcript re-raises the exception to its caller instead of
absorbing it, contradicting the claim that the operation never raises. -/
theorem c1_process_transcript_raises_counterexample :
    process_transcript true (Except.error ()) (fun _ => none) "hello" =
      Except.error () := rfl

/-- Claim C1 (amended): the pipeline as a whole is total. process_transcript
absorbs model absence and unparseable responses, but re-raises model-call
exceptions; the enclosing summarize_meeting routing catches those and runs
create_fallback_analysis, so for every model outcome, decoder behaviour and
input the returned result is a structurally complete analysis dict with the
summary, action_items, key_decisions and next_steps fields present. -/
theorem c1_pipeline_total_amended (ml : Bool) (mc : Except Unit String)
    (jl : String → Option PyDict) (t c p : String) :
    hasMandatoryFields (summarize_meeting_core ml mc jl t c p) = true := by
  unfold summarize_meeting_core process_transcript
  cases ml with
  | false => exact fallback_parsing_mandatory t
  | true =>
    cases mc with
    | error e => exact cfa_ps3_mandatory t c p
    | ok raw =>
      show hasMandatoryFields (parse_stage jl (pyStrip raw)) = true
      unfold parse_stage
      cases hf : pyFindChar (pyStrip raw) '\x7b' with
      | none => exact fallback_parsing_mandatory _
      | some js =>
        cases hr : pyRfindChar (pyStrip raw) '\x7d' with
        | none => exact fallback_parsing_mandatory _
        | some je =>
          show hasMandatoryFields
            (match jl (candidateSpan (pyStrip raw) js je) with
             | some d => ensure_fields d
             | none => fallback_parsing (pyStrip raw)) = true
          cases hl : jl (candidateSpan (pyStrip raw) js je) with
          | none => exact fallback_parsing_mandatory _
          | some d => exact ensure_fields_mandatory d

/-- Claim C5 (counterexample): _fallback_parsing applies no cap, so a response
text with an action-items header followed by eleven content lines makes the
pipeline return eleven action items, refuting length at most 10. The transcript
is routed through process_transcript with no model configured. -/
theorem c5_unbounded_action_items_counterexample :
    actionItemsLenE (process_transcript false (Except.ok "") (fun _ => none)
      "Action Items:\npoint one\npoint two\npoint three\npoint four\npoint five\npoint six\npoint seven\npoint eight\npoint nine\npoint ten\npoint eleven")
      = 11 := rfl

/-- Claim C5 (amended): the two app-level fallback analyzers do bound their
output by slicing (action_items to at most 10, key_decisions and next_steps to
at most 3, hence at most 5), keeping the first items in discovery order; the
cap does not hold for AIEngine._fallback_parsing, which appends without limit. -/
theorem c5_bounded_output_amended (t c p : String) :
    (actionItemsOf (create_fallback_analysis t c p)).length ≤ 10 ∧
    (keyDecisionsOf (create_fallback_analysis t c p)).length ≤ 5 ∧
    (nextStepsOf (create_fallback_analysis t c p)).length ≤ 5 ∧
    (actionItemsOf (create_fallback_analysis_ps3 t c p)).length ≤ 10 ∧
    (keyDecisionsOf (create_fallback_analysis_ps3 t c p)).length ≤ 5 ∧
    (nextStepsOf (create_fallback_analysis_ps3 t c p)).length ≤ 5 := by
  refine ⟨?_, ?_, ?_, ?_, ?_, ?_⟩ <;>
    simp [create_fallback_analysis, create_fallback_analysis_ps3,
          actionItemsOf, keyDecisionsOf, nextStepsOf, pyGet, List.length_take]

theorem isRemarkObj_mk (a b c : String) :
    isRemarkObj (JVal.obj [("person", JVal.s a), ("remark", JVal.s b),
                           ("given_to", JVal.s c)]) = true := rfl

theorem all_take_true {α : Type} (p : α → Bool) :
    ∀ (n : Nat) (l : List α), l.all p = true → (l.take n).all p = true := by
  intro n l
  induction l generalizing n with
  | nil => intro h; simp
  | cons x xs ih =>
    intro h
    cases n with
    | zero => simp
    | succ m =>
      simp only [List.take, List.all_cons, Bool.and_eq_true] at h ⊢
      exact ⟨h.1, ih m h.2⟩

theorem remarkPass_all_shape :
    ∀ (lines parts : List String) (items : List JVal),
      items.all isRemarkObj = true →
      (remarkPass lines parts items).all isRemarkObj = true := by
  intro lines
  induction lines with
  | nil => intro parts items h; exact h
  | cons l rest ih =>
    intro parts items h
    simp only [remarkPass]
    split
    · exact ih _ _ h
    · split
      · exact ih _ _ h
      · split
        · apply ih
          simp [List.all_append, h, isRemarkObj_mk]
        · exact ih _ _ h

theorem actionItems_cfa_eq (t c p : String) :
    actionItemsOf (create_fallback_analysis t c p) =
      (if (remarkPass (cfaLines t) [] []).isEmpty then [systemPlaceholder]
       else remarkPass (cfaLines t) [] []).take 10 := rfl

theorem actionItems_cfa_ps3_eq (t c p : String) :
    actionItemsOf (create_fallback_analysis_ps3 t c p) =
      (if (remarkPass (splitNl t) [] []).isEmpty then [systemPlaceholder]
       else remarkPass (splitNl t) [] []).take 10 := rfl

/-- Claim C7 (counterexample): on the empty transcript the returned
action_items is the System placeholder remark object, which has no task field
at all, refuting the claim that every returned action item carries populated
task, assignee, assigned_by, deadline, priority and confidence fields. -/
theorem c7_missing_task_field_counterexample :
    actionItemsOf (create_fallback_analysis "" "c" "p") = [systemPlaceholder] ∧
    (match systemPlaceholder with
     | JVal.obj d => pyGet d "task"
     | _ => some JVal.null) = none :=
  ⟨rfl, rfl⟩

/-- Claim C7 (amended): every element of the action_items list returned by
either copy of create_fallback_analysis is a remark object with its person,
remark and given_to fields populated by string values (the sentinel General
when no addressee is found); the six-field task items of the first pass are
discarded before the return. -/
theorem c7_remark_shape_amended (t c p : String) :
    (actionItemsOf (create_fallback_analysis t c p)).all isRemarkObj = true ∧
    (actionItemsOf (create_fallback_analysis_ps3 t c p)).all isRemarkObj = true := by
  constructor
  · rw [actionItems_cfa_eq]
    split
    · rfl
    · exact all_take_true _ 10 _ (remarkPass_all_shape (cfaLines t) [] [] rfl)
  · rw [actionItems_cfa_ps3_eq]
    split
    · rfl
    · exact all_take_true _ 10 _ (remarkPass_all_shape (splitNl t) [] [] rfl)

theorem not_isEmpty_of_ne {s : String} (h : s ≠ "") : (!s.isEmpty) = true := by
  cases hb : s.isEmpty with
  | false => rfl
  | true => exact absurd ((String.isEmpty_iff s).mp hb) h

theorem data_ne_nil_iff (s : String) : s.data ≠ [] ↔ s ≠ "" := by
  constructor
  · intro hd he
    exact hd (by rw [he])
  · intro hs hd
    exact hs (String.ext_iff.mpr hd)

theorem not_isEmpty_of_data {s : String} (h : s.data ≠ []) : (!s.isEmpty) = true :=
  not_isEmpty_of_ne ((data_ne_nil_iff s).mp h)

theorem data_append_ne_nil_right (s t : String) (ht : t.data ≠ []) :
    (s ++ t).data ≠ [] := by
  rw [string_data_append]
  intro h
  exact ht (List.append_eq_nil.mp h).2

theorem pyJoin_head_data {x : String} (xs : List String) (hx : x.data ≠ []) :
    (pyJoin " " (x :: xs)).data ≠ [] := by
  cases xs with
  | nil => exact hx
  | cons y rest =>
    show (x ++ " " ++ pyJoin " " (y :: rest)).data ≠ []
    rw [string_data_append, string_data_append]
    intro h
    exact hx (List.append_eq_nil.mp (List.append_eq_nil.mp h).1).1

theorem summaryStr_fallback_parsing (t : String) :
    summaryStr (fallback_parsing t) =
      some (if ((splitNl t).foldl fp_step fpInit).summary = ""
            then fpDefaultSummary (splitNl t)
            else ((splitNl t).foldl fp_step fpInit).summary) := rfl

theorem fpDefaultSummary_data_ne_nil (lines : List String) :
    (fpDefaultSummary lines).data ≠ [] := by
  unfold fpDefaultSummary
  split
  · decide
  · next s0 rest heq =>
    have hmem : s0 ∈ (lines.map pyStrip).filter (fun l => !l.isEmpty && decide (20 < l.length)) := by
      rw [heq]; exact List.mem_cons_self _ _
    have hp := List.of_mem_filter hmem
    rw [Bool.and_eq_true] at hp
    split
    · exact data_append_ne_nil_right _ "..." (by decide)
    · exact (data_ne_nil_iff s0).mpr (by
        intro he
        rw [he] at hp
        exact absurd hp.1 (by decide))

theorem pyGet_setdefault_preserve {d : PyDict} {k : String} {v : JVal}
    (k2 : String) (v2 : JVal) (h : pyGet d k = some v) :
    pyGet (setdefaultD d k2 v2) k = some v := by
  unfold setdefaultD
  split
  · exact h
  · rw [pyGet_append, h]

theorem ensure_fields_backfills_summary (d : PyDict) (h : pyGet d "summary" = none) :
    summaryStr (ensure_fields d) = some "No summary available." := by
  have h1 : pyGet (setdefaultD d "summary" (JVal.s "No summary available.")) "summary" =
      some (JVal.s "No summary available.") := by
    unfold setdefaultD hasKey
    rw [h]
    simp only [Option.isSome_none, Bool.false_eq_true, if_false]
    rw [pyGet_append, h]
    simp [pyGet]
  have h2 := pyGet_setdefault_preserve "action_items" (JVal.arr []) h1
  have h3 := pyGet_setdefault_preserve "key_decisions" (JVal.arr []) h2
  have h4 := pyGet_setdefault_preserve "next_steps" (JVal.arr []) h3
  unfold ensure_fields summaryStr
  rw [h4]

/-- Claim C6 (counterexample): on the successful-parse path, a model response
whose decoded object carries an explicitly empty summary string is returned
with that empty summary: the backfill of lines 195-196 only checks key
presence, not emptiness. The decoder value models json.loads on the payload
consisting of one summary key with the empty string. -/
def c6loads : String → Option PyDict := fun txt =>
  if txt = "\x7b\"summary\": \"\"\x7d" then some [("summary", JVal.s "")] else none

theorem c6_empty_summary_counterexample :
    process_transcript true (Except.ok "\x7b\"summary\": \"\"\x7d") c6loads
      "team meeting transcript" =
      Except.ok (ensure_fields [("summary", JVal.s "")]) ∧
    summaryStr (ensure_fields [("summary", JVal.s "")]) = some "" :=
  ⟨rfl, rfl⟩

/-- Claim C6 (amended): the summary is non-empty on every fallback path
(_fallback_parsing for any text, both copies of create_fallback_analysis for
any inputs), and on the successful-parse path a missing summary key is
backfilled with the non-empty placeholder; but a summary explicitly present as
the empty string is passed through unchanged. -/
theorem c6_nonempty_summary_amended (t c p : String) (d : PyDict) :
    summaryNonempty (fallback_parsing t) = true ∧
    summaryNonempty (create_fallback_analysis t c p) = true ∧
    summaryNonempty (create_fallback_analysis_ps3 t c p) = true ∧
    (pyGet d "summary" = none →
      summaryStr (ensure_fields d) = some "No summary available.") := by
  refine ⟨?_, ?_, ?_, ensure_fields_backfills_summary d⟩
  · unfold summaryNonempty
    rw [summaryStr_fallback_parsing]
    show (!(if ((splitNl t).foldl fp_step fpInit).summary = ""
            then fpDefaultSummary (splitNl t)
            else ((splitNl t).foldl fp_step fpInit).summary).isEmpty) = true
    split
    · exact not_isEmpty_of_data (fpDefaultSummary_data_ne_nil (splitNl t))
    · next hne => exact not_isEmpty_of_ne hne
  · show (!(cfaSummary c p (cfaNames (cfaLines t))
        (cfaTaskItems (cfaStatements (cfaLines t)))
        (cfaDecisions (cfaStatements (cfaLines t)))
        (moodOf legacy_positive_words legacy_negative_words t).1).isEmpty) = true
    apply not_isEmpty_of_data
    apply pyJoin_head_data
    exact data_append_ne_nil_right _ "." (by decide)
  · show (!("Meeting for " ++ c ++ " regarding " ++ p ++
      ". Key topics discussed include project progress, technical implementation, and upcoming deliverables. " ++
      toString (if (remarkPass (splitNl t) [] []).isEmpty then [systemPlaceholder]
                else remarkPass (splitNl t) [] []).length ++
      " action items identified.").isEmpty) = true
    apply not_isEmpty_of_data
    exact data_append_ne_nil_right _ " action items identified." (by decide)

/-- Witness for the amended C6 at concrete inputs. -/
theorem c6_nonempty_summary_amended_witness :
    summaryNonempty (fallback_parsing "hello world") = true ∧
    summaryStr (ensure_fields []) = some "No summary available." :=
  ⟨(c6_nonempty_summary_amended "hello world" "c" "p" []).1,
   (c6_nonempty_summary_amended "hello world" "c" "p" []).2.2.2 rfl⟩
